import Mathlib

/-!
Verification of the fido asynchronous HTTP client core against its
natural-language specification.

The core module (fido/fido.py) is shallowly embedded below.  Pure helpers
(URL normalization, body-producer construction, timeout arming) become Lean
functions; the cross-thread future (crochet EventualResult) becomes an
explicit single-assignment state with a step function; the reactor-side
execution of a fetch becomes a fold over a list of reactor events.  Strings
stand for Python strings, association lists for header dicts.
-/

namespace Fido

/-! ## URL normalization

Modelled from the spec: the Fetch Orchestrator "normalizes url to a
byte-exact encoded form (non-ASCII characters UTF-8 encoded) before handing
to the engine" (fido/fido.py, function named _url_to_utf8 by the tests, is
not in the sources; the model applies standard UTF-8 to each code point). -/

/-- Standard UTF-8 encoding of a single Unicode code point, as byte values. -/
def utf8EncodeChar (c : Nat) : List Nat :=
  if c < 0x80 then [c]
  else if c < 0x800 then
    [0xC0 + c / 0x40, 0x80 + c % 0x40]
  else if c < 0x10000 then
    [0xE0 + c / 0x1000, 0x80 + (c / 0x40) % 0x40, 0x80 + c % 0x40]
  else
    [0xF0 + c / 0x40000, 0x80 + (c / 0x1000) % 0x40,
     0x80 + (c / 0x40) % 0x40, 0x80 + c % 0x40]

/-- Modelled from the spec: _url_to_utf8 — a URL, given as a list of Unicode
code points, is normalized by UTF-8 encoding every character. -/
def url_to_utf8 (url : List Nat) : List Nat :=
  url.flatMap utf8EncodeChar

/-! ## Body Producer Builder

Modelled from the spec: _build_body_producer (not in the sources; only its
tests are).  Given an optional body and a header mapping it "decides whether
a streamed-body producer is needed and reconciles the Content-Length header
accordingly, without mutating caller-supplied headers".  Headers are an
association list (order- and case-preserving, as the spec requires); the
producer is modelled as the optional body payload it wraps. -/

/-- ASCII lower-casing of one character (for case-insensitive header keys). -/
def lowerChar (c : Char) : Char :=
  if 65 ≤ c.toNat ∧ c.toNat ≤ 90 then Char.ofNat (c.toNat + 32) else c

/-- ASCII lower-casing of a header key. -/
def lowerStr (s : String) : String :=
  String.mk (s.data.map lowerChar)

/-- Does a header key name Content-Length, case-insensitively? -/
def isContentLength (k : String) : Bool :=
  lowerStr k == "content-length"

/-- Is the request body absent or empty?  (Python truthiness of body.) -/
def bodyAbsent (body : Option String) : Bool :=
  match body with
  | none => true
  | some s => s.isEmpty

/-- Modelled from the spec: _build_body_producer.  With an absent/empty body
it returns no producer and the headers unchanged; with a present body it
returns a producer wrapping the body and a copy of the headers from which
every Content-Length key has been removed case-insensitively. -/
def build_body_producer (body : Option String) (headers : List (String × String)) :
    Option String × List (String × String) :=
  if bodyAbsent body then
    (none, headers)
  else
    (body, headers.filter (fun kv => !isContentLength kv.1))

/-! A heap model for the frame property: header mappings live in a store of
objects addressed by identity, so that "the caller's mapping object is never
mutated" is expressible.  Modelled from the spec: the builder must "never
mutate the caller-supplied headers mapping; always operate on and return a
copy". -/

/-- A store of header-mapping objects, addressed by position (object id). -/
structure Store where
  objs : List (List (String × String))
deriving DecidableEq

/-- Modelled from the spec: the builder run against the store.  Given the id
of the caller's mapping it allocates a fresh mapping for its result (in the
body-present case) instead of editing the caller's object in place, and
returns the producer, the id of the resulting mapping, and the new store. -/
def build_body_producer_heap (body : Option String) (h : Nat) (st : Store) :
    Option String × Nat × Store :=
  if bodyAbsent body then
    (none, h, st)
  else
    let old := st.objs.getD h []
    (body, st.objs.length,
     ⟨st.objs ++ [old.filter (fun kv => !isContentLength kv.1)]⟩)

/-! ## Timeout Governor

Modelled from the spec: _set_deferred_timeout (not in the sources; only its
tests are).  "If timeout is absent: no timer is installed ... If timeout is
present: schedule a one-shot callback after timeout elapses that cancels the
in-flight operation", and attach a completion hook (to both callback and
errback chains) that disarms the pending timer once the operation reaches
any terminal state.  The reactor records its callLater invocations; the
deferred records the hooks added to its chain. -/

/-- The action a scheduled timer will perform when it fires. -/
inductive TimerAction where
  | cancelDeferred
deriving DecidableEq

/-- One reactor.callLater invocation: a one-shot timer. -/
structure DelayedCall where
  delay : Int
  action : TimerAction
deriving DecidableEq

/-- A hook attached to the deferred's chain via addBoth. -/
inductive DeferredHook where
  | disarmTimer
deriving DecidableEq

/-- The reactor, recording the timers scheduled on it. -/
structure Reactor where
  calls : List DelayedCall
deriving DecidableEq

/-- The in-flight operation's deferred, recording its attached hooks. -/
structure Deferred where
  chain : List DeferredHook
deriving DecidableEq

/-- A pending timer handle, as returned by reactor.callLater. -/
structure TimerHandle where
  active : Bool
deriving DecidableEq

/-- The two terminal states of the in-flight operation. -/
inductive DeferredOutcome where
  | success
  | failure
deriving DecidableEq

/-- Modelled from the spec: _set_deferred_timeout.  With no timeout it
touches neither the reactor nor the deferred; with timeout t it schedules
exactly one one-shot cancellation timer after t and adds the disarming hook
to the deferred's chain. -/
def set_deferred_timeout (reactor : Reactor) (deferred : Deferred)
    (timeout : Option Int) : Reactor × Deferred :=
  match timeout with
  | none => (reactor, deferred)
  | some t =>
      (⟨reactor.calls ++ [⟨t, TimerAction.cancelDeferred⟩]⟩,
       ⟨deferred.chain ++ [DeferredHook.disarmTimer]⟩)

/-- A hook added with addBoth fires on every terminal outcome. -/
def hookFires : DeferredHook → DeferredOutcome → Bool
  | DeferredHook.disarmTimer, _ => true

/-- Modelled from the spec: running the completion hook cancels the pending
timer if it is still active, so the timer is inactive afterwards. -/
def runHook : DeferredHook → TimerHandle → TimerHandle
  | DeferredHook.disarmTimer, h => if h.active then ⟨false⟩ else h

/-! ## Cross-Thread Future (crochet EventualResult)

Modelled from the spec: the Reactor Bridge's Cross-Thread Future has states
pending → resolved(Response) | resolved(Error); "at most one resolution is
ever recorded; later resolution attempts are no-ops".  Errors carry the
Python exception class and message so that "verbatim" and
"distinguishable" are expressible. -/

/-- The completed network response (status, headers, raw body). -/
structure Response where
  code : Nat
  headers : List (String × String)
  body : String
deriving DecidableEq

/-- A Python exception as recorded or raised by the core. -/
inductive FidoError where
  | crochetTimeout (message : String)
  | networkError (cls : String) (message : String)
  | valueError (message : String)
deriving DecidableEq

/-- The Python class of an exception, for kind-distinguishability. -/
def errorClass : FidoError → String
  | FidoError.crochetTimeout _ => "crochet.TimeoutError"
  | FidoError.networkError cls _ => cls
  | FidoError.valueError _ => "ValueError"

/-- The human-readable message of an exception. -/
def errorMessage : FidoError → String
  | FidoError.crochetTimeout m => m
  | FidoError.networkError _ m => m
  | FidoError.valueError m => m

/-- A resolution of the future: COMPLETED with a response or FAILED with an
error. -/
inductive Resolution where
  | success (r : Response)
  | failure (e : FidoError)
deriving DecidableEq

/-- The Cross-Thread Future: pending (none) or resolved exactly once. -/
structure EventualResult where
  resolution : Option Resolution
deriving DecidableEq

/-- A freshly created, still pending future. -/
def EventualResult.pending : EventualResult := ⟨none⟩

/-- Modelled from the spec: recording a resolution is single-assignment —
the first write wins and every later attempt is a no-op. -/
def resolve (er : EventualResult) (r : Resolution) : EventualResult :=
  match er.resolution with
  | some _ => er
  | none => ⟨some r⟩

/-- Modelled from the spec: EventualResult.original_failure — non-blocking
inspection of a FAILED state, empty unless an error resolution is recorded. -/
def original_failure (er : EventualResult) : Option FidoError :=
  match er.resolution with
  | some (Resolution.failure e) => some e
  | _ => none

/-- What a wait call observes: the response, a re-raised recorded error, the
caller-local wait-deadline timeout, or continued blocking (no deadline,
still unresolved). -/
inductive WaitResult where
  | gotResponse (r : Response)
  | raised (e : FidoError)
  | raisedWaitTimeout
  | keepsBlocking
deriving DecidableEq

/-- Modelled from the spec: EventualResult.wait with an optional deadline
(deadline = true when a wait timeout was passed and elapses before
resolution).  It returns the response if COMPLETED, re-raises the recorded
error verbatim if FAILED, raises the wait-deadline timeout otherwise when a
deadline was given, and never modifies the future. -/
def wait (er : EventualResult) (deadline : Bool) : WaitResult × EventualResult :=
  match er.resolution with
  | some (Resolution.success r) => (WaitResult.gotResponse r, er)
  | some (Resolution.failure e) => (WaitResult.raised e, er)
  | none =>
      if deadline then (WaitResult.raisedWaitTimeout, er)
      else (WaitResult.keepsBlocking, er)

/-! ## Reactor-side execution and fetch

Modelled from the spec: the Reactor Bridge runs the fetch unit on the
reactor thread; "any exception raised synchronously in this phase ... is
caught on the reactor thread and recorded as a FAILED resolution rather
than propagating out of the reactor's event loop", and engine failures
delivered through the errback chain are "passed through verbatim ... into
the FAILED resolution, unmodified".  Reactor-side history is a list of
events folded over the future. -/

/-- One event observed on the reactor thread for a given fetch. -/
inductive ReactorEvent where
  | constructionError (e : FidoError)
  | engineFailure (e : FidoError)
  | engineSuccess (r : Response)
deriving DecidableEq

/-- Modelled from the spec: processing one reactor event.  Every exception
is trapped and recorded; the Bool reports whether an exception escaped the
event loop (it never does). -/
def process_reactor_event (er : EventualResult) :
    ReactorEvent → EventualResult × Bool
  | ReactorEvent.constructionError e => (resolve er (Resolution.failure e), false)
  | ReactorEvent.engineFailure e => (resolve er (Resolution.failure e), false)
  | ReactorEvent.engineSuccess r => (resolve er (Resolution.success r), false)

/-- One fold step of reactor-side execution: deliver the event to the
future and accumulate the escaped-exception flag. -/
def reactor_step (acc : EventualResult × Bool) (ev : ReactorEvent) :
    EventualResult × Bool :=
  ((process_reactor_event acc.1 ev).1,
   acc.2 || (process_reactor_event acc.1 ev).2)

/-- Folding a whole reactor-side history over a future, accumulating
whether any exception ever escaped the event loop. -/
def run_reactor_events (er : EventualResult) (evs : List ReactorEvent) :
    EventualResult × Bool :=
  evs.foldl reactor_step (er, false)

/-- Modelled from the spec: fetch.  It first performs the singleton reactor
startup (crochet.setup); if that raises, the exception propagates
synchronously out of fetch and no future is returned.  Otherwise fetch
returns normally with the Cross-Thread Future, which the given reactor-side
history then resolves. -/
def fetch (setup : Except FidoError Unit) (evs : List ReactorEvent) :
    Except FidoError (EventualResult × Bool) :=
  match setup with
  | Except.error e => Except.error e
  | Except.ok _ => Except.ok (run_reactor_events EventualResult.pending evs)

/-! ## Timeout Governor error text

Modelled from the spec and pinned by the tests: the error recorded when the
response-timeout timer fires, when the connect timeout fires, and the error
crochet raises for the caller's own wait deadline.  All three are
crochet.TimeoutError. -/

/-- Modelled from the spec: the FAILED error recorded when the response
timer cancels the operation (message shape pinned by test_agent_timeout). -/
def response_timeout_error (t : Int) : FidoError :=
  FidoError.crochetTimeout
    ("Connection was closed by fido because the server took more than " ++
     ("timeout=" ++ toString t) ++ " seconds to send the response")

/-- Modelled from the spec: the FAILED error recorded when the connect
timer fires (message shape pinned by test_agent_connect_timeout). -/
def connect_timeout_error (t : Int) : FidoError :=
  FidoError.crochetTimeout
    ("Connection was closed by Twisted Agent because the HTTP connection took more than " ++
     ("connect_timeout=" ++ toString t) ++ " seconds to establish.")

/-- Modelled from the spec: the caller-local error raised when wait's own
deadline elapses (crochet.TimeoutError with crochet's stock message). -/
def wait_timeout_error : FidoError :=
  FidoError.crochetTimeout "Timeout waiting for result."

/-- One string occurs inside another (substring match, as the tests do). -/
def containsSub (msg sub : String) : Prop :=
  ∃ s t : String, msg = s ++ sub ++ t

end Fido

namespace Fido

/-- Helper: UTF-8 leaves one ASCII character as that single byte. -/
theorem utf8EncodeChar_ascii (c : Nat) (h : c < 0x80) :
    utf8EncodeChar c = [c] := by
  simp [utf8EncodeChar, h]

/-- Claim C8: the orchestrator's URL normalization encodes each character of
the URL to its UTF-8 byte sequence (ASCII characters pass through as single
bytes), and the one-character input 繁 (code point 0x7E41) normalizes to
exactly the three bytes 0xE7 0xB9 0x81. -/
theorem url_to_utf8_utf8_encodes :
    url_to_utf8 [0x7E41] = [0xE7, 0xB9, 0x81] ∧
    (∀ url : List Nat, url_to_utf8 url = url.flatMap utf8EncodeChar) ∧
    (∀ c : Nat, c < 0x80 → url_to_utf8 [c] = [c]) := by
  refine ⟨by decide, fun url => rfl, fun c h => ?_⟩
  simp [url_to_utf8, utf8EncodeChar_ascii c h]

/-- Witness for C8: the ASCII clause evaluated at the concrete byte 0x2F. -/
theorem url_to_utf8_utf8_encodes_witness :
    url_to_utf8 [0x2F] = [0x2F] :=
  url_to_utf8_utf8_encodes.2.2 0x2F (by decide)

/-- Claim C6: with an absent/empty body the builder returns no producer and
the headers unchanged (any caller-set Content-Length included); with a
present body it returns a non-null producer wrapping the body together with
a headers mapping containing exactly those of the original pairs whose key
is not Content-Length case-insensitively, in their original order. -/
theorem build_body_producer_content_length :
    (∀ body headers, bodyAbsent body = true →
        build_body_producer body headers = (none, headers)) ∧
    (∀ body headers, bodyAbsent body = false →
        (build_body_producer body headers).1 = body ∧
        (build_body_producer body headers).1 ≠ none ∧
        (∀ kv : String × String,
          kv ∈ (build_body_producer body headers).2 ↔
            kv ∈ headers ∧ ¬ isContentLength kv.1) ∧
        (build_body_producer body headers).2.Sublist headers) := by
  constructor
  · intro body headers h
    simp [build_body_producer, h]
  · intro body headers h
    refine ⟨by simp [build_body_producer, h], ?_, ?_, ?_⟩
    · intro hnone
      rcases body with _ | s
      · simp [bodyAbsent] at h
      · simp [build_body_producer, h] at hnone
    · intro kv
      simp [build_body_producer, h, List.mem_filter]
    · simp only [build_body_producer, h, Bool.false_eq_true, if_false]
      exact List.filter_sublist headers

/-- Witness for C6, at the tests' inputs: no body keeps Content-Length; a
present body drops the content-length pair (lower-case spelling) and keeps
the other header. -/
theorem build_body_producer_content_length_witness :
    build_body_producer none [("Content-Length", "0")]
      = (none, [("Content-Length", "0")]) ∧
    ("foo", "bar") ∈
      (build_body_producer (some "x") [("content-length", "22"), ("foo", "bar")]).2 ∧
    ("content-length", "22") ∉
      (build_body_producer (some "x") [("content-length", "22"), ("foo", "bar")]).2 := by
  refine ⟨build_body_producer_content_length.1 none _ (by decide), ?_, ?_⟩
  · exact ((build_body_producer_content_length.2 (some "x") _ (by decide)).2.2.1
      ("foo", "bar")).mpr ⟨by decide, by decide⟩
  · intro hmem
    exact (((build_body_producer_content_length.2 (some "x") _ (by decide)).2.2.1
      ("content-length", "22")).mp hmem).2 (by decide)

/-- Claim C7: the builder never mutates the caller-supplied headers
mapping: in the store model, the caller's mapping object holds exactly the
same pairs after the call as before, for every body. -/
theorem build_body_producer_no_mutation (body : Option String) (h : Nat)
    (st : Store) (hh : h < st.objs.length) :
    ((build_body_producer_heap body h st).2.2).objs[h]? = st.objs[h]? := by
  unfold build_body_producer_heap
  by_cases hb : bodyAbsent body = true
  · simp [hb]
  · simp only [hb, if_false, Bool.false_eq_true]
    rw [List.getElem?_append, if_pos hh]

/-- Witness for C7: the caller's mapping (object 0) still holds its
Content-Length pair after a body-present call. -/
theorem build_body_producer_no_mutation_witness :
    ((build_body_producer_heap (some "x") 0
        ⟨[[("Content-Length", "22"), ("foo", "bar")]]⟩).2.2).objs[0]?
      = some [("Content-Length", "22"), ("foo", "bar")] :=
  (build_body_producer_no_mutation (some "x") 0
    ⟨[[("Content-Length", "22"), ("foo", "bar")]]⟩ (by decide)).trans rfl

/-- Claim C5: arming the Timeout Governor with None installs no timer,
while arming with timeout t schedules exactly one one-shot callback after t
whose action cancels the in-flight operation, and attaches a completion
hook to the operation that fires on every terminal outcome and disarms the
pending timer. -/
theorem set_deferred_timeout_arming :
    (∀ r d, (set_deferred_timeout r d none).1.calls = r.calls) ∧
    (∀ r d (t : Int),
      (set_deferred_timeout r d (some t)).1.calls
          = r.calls ++ [⟨t, TimerAction.cancelDeferred⟩] ∧
      (set_deferred_timeout r d (some t)).2.chain
          = d.chain ++ [DeferredHook.disarmTimer] ∧
      (∀ o, hookFires DeferredHook.disarmTimer o = true) ∧
      (∀ th, (runHook DeferredHook.disarmTimer th).active = false)) := by
  refine ⟨fun r d => rfl, fun r d t => ⟨rfl, rfl, fun o => rfl, fun th => ?_⟩⟩
  cases th with
  | mk a => cases a <;> simp [runHook]

/-- Claim C10: arming the Timeout Governor with None leaves the operation
entirely untouched: no timer is scheduled and the deferred's callback chain
after the call equals its chain before. -/
theorem set_deferred_timeout_none_untouched (r : Reactor) (d : Deferred) :
    set_deferred_timeout r d none = (r, d) ∧
    (set_deferred_timeout r d none).2.chain = d.chain ∧
    (set_deferred_timeout r d none).1.calls = r.calls :=
  ⟨rfl, rfl, rfl⟩

/-- Helper: once a future is resolved, any list of further resolution
attempts leaves the recorded outcome unchanged. -/
theorem foldl_resolve_resolved (x : Resolution) (rs : List Resolution) :
    rs.foldl resolve ⟨some x⟩ = (⟨some x⟩ : EventualResult) := by
  induction rs with
  | nil => rfl
  | cons r rs ih => rw [List.foldl_cons]; exact ih

/-- Claim C2: at most one resolution is ever recorded per future — a
resolved future absorbs every later resolution attempt as a no-op, and for
any sequence of attempts against a fresh future the recorded outcome is
exactly the first attempt, whatever arrives afterwards (a late timer firing
or a late completion included). -/
theorem resolution_single_assignment :
    (∀ er r, er.resolution ≠ none → resolve er r = er) ∧
    (∀ (first : Resolution) (rest : List Resolution),
      (rest.foldl resolve (resolve EventualResult.pending first)).resolution
        = some first) := by
  constructor
  · intro er r h
    rcases er with ⟨_ | x⟩
    · exact absurd rfl h
    · rfl
  · intro first rest
    have h1 : resolve EventualResult.pending first = ⟨some first⟩ := rfl
    rw [h1, foldl_resolve_resolved]

/-- Witness for C2: a future already FAILED with the response-timeout error
ignores a late success, and a fresh future hit by timeout-then-success
records the timeout. -/
theorem resolution_single_assignment_witness :
    resolve ⟨some (Resolution.failure (response_timeout_error 1))⟩
        (Resolution.success ⟨200, [], "ok"⟩)
      = (⟨some (Resolution.failure (response_timeout_error 1))⟩ : EventualResult) ∧
    ([Resolution.success ⟨200, [], "ok"⟩].foldl resolve
        (resolve EventualResult.pending
          (Resolution.failure (response_timeout_error 1)))).resolution
      = some (Resolution.failure (response_timeout_error 1)) :=
  ⟨resolution_single_assignment.1 _ _ (by simp),
   resolution_single_assignment.2 _ _⟩

/-- Claim C4: wait with a deadline on an unresolved future raises the
wait-deadline timeout, leaves the future untouched and records no error
(original_failure is empty before and after the raise), and a subsequent
unlimited wait on the same future still returns the response once the
operation completes. -/
theorem wait_deadline_does_not_cancel (er : EventualResult)
    (h : er.resolution = none) (r : Response) :
    (wait er true).1 = WaitResult.raisedWaitTimeout ∧
    (wait er true).2 = er ∧
    original_failure er = none ∧
    original_failure (wait er true).2 = none ∧
    (wait (resolve (wait er true).2 (Resolution.success r)) false).1
      = WaitResult.gotResponse r := by
  rcases er with ⟨res⟩
  simp only [EventualResult.mk.injEq] at h
  subst h
  exact ⟨rfl, rfl, rfl, rfl, rfl⟩

/-- Witness for C4, at a pending future and a concrete response. -/
theorem wait_deadline_does_not_cancel_witness :
    (wait EventualResult.pending true).1 = WaitResult.raisedWaitTimeout ∧
    (wait EventualResult.pending true).2 = EventualResult.pending ∧
    original_failure EventualResult.pending = none ∧
    original_failure (wait EventualResult.pending true).2 = none ∧
    (wait (resolve (wait EventualResult.pending true).2
        (Resolution.success ⟨200, [("Content-Type", "application/json")], "ok"⟩))
      false).1
      = WaitResult.gotResponse ⟨200, [("Content-Type", "application/json")], "ok"⟩ :=
  wait_deadline_does_not_cancel EventualResult.pending rfl
    ⟨200, [("Content-Type", "application/json")], "ok"⟩

/-- Helper: the escaped-exception flag of a reactor-side fold never rises
above its starting value, since processing an event never lets an
exception escape. -/
theorem foldl_reactor_step_flag (evs : List ReactorEvent) :
    ∀ acc : EventualResult × Bool, (evs.foldl reactor_step acc).2 = acc.2 := by
  induction evs with
  | nil => intro acc; rfl
  | cons ev evs ih =>
      intro acc
      rw [List.foldl_cons, ih]
      cases ev <;> simp [reactor_step, process_reactor_event]

/-- Helper: a reactor-side fold preserves an already recorded resolution. -/
theorem foldl_reactor_step_resolved (x : Resolution) (evs : List ReactorEvent) :
    ∀ b : Bool, (evs.foldl reactor_step (⟨some x⟩, b)).1.resolution = some x := by
  induction evs with
  | nil => intro b; rfl
  | cons ev evs ih =>
      intro b
      rw [List.foldl_cons]
      have hstep : reactor_step (⟨some x⟩, b) ev = (⟨some x⟩, b) := by
        cases ev <;> simp [reactor_step, process_reactor_event, resolve]
      rw [hstep]
      exact ih b

/-- Claim C1: an exception on the reactor thread — raised during request
construction or delivered through the engine's failure hook — is trapped
there and recorded as the FAILED resolution; fetch itself returns normally
with the future; a later wait re-raises exactly that exception unmodified;
and no exception ever escapes the reactor's event loop, whatever the
event history. -/
theorem reactor_exceptions_trapped (e : FidoError) (evs : List ReactorEvent) :
    (run_reactor_events EventualResult.pending evs).2 = false ∧
    fetch (Except.ok ()) (ReactorEvent.constructionError e :: evs)
      = Except.ok (run_reactor_events EventualResult.pending
          (ReactorEvent.constructionError e :: evs)) ∧
    (wait (run_reactor_events EventualResult.pending
        (ReactorEvent.constructionError e :: evs)).1 false).1
      = WaitResult.raised e ∧
    (wait (run_reactor_events EventualResult.pending
        (ReactorEvent.engineFailure e :: evs)).1 false).1
      = WaitResult.raised e := by
  refine ⟨foldl_reactor_step_flag evs (EventualResult.pending, false), rfl, ?_, ?_⟩
  · have hres : (run_reactor_events EventualResult.pending
        (ReactorEvent.constructionError e :: evs)).1.resolution
        = some (Resolution.failure e) := by
      unfold run_reactor_events
      rw [List.foldl_cons]
      exact foldl_reactor_step_resolved (Resolution.failure e) evs false
    rcases hmk : (run_reactor_events EventualResult.pending
        (ReactorEvent.constructionError e :: evs)).1 with ⟨res⟩
    rw [hmk] at hres
    simp only [EventualResult.mk.injEq] at hres
    subst hres
    rfl
  · have hres : (run_reactor_events EventualResult.pending
        (ReactorEvent.engineFailure e :: evs)).1.resolution
        = some (Resolution.failure e) := by
      unfold run_reactor_events
      rw [List.foldl_cons]
      exact foldl_reactor_step_resolved (Resolution.failure e) evs false
    rcases hmk : (run_reactor_events EventualResult.pending
        (ReactorEvent.engineFailure e :: evs)).1 with ⟨res⟩
    rw [hmk] at hres
    simp only [EventualResult.mk.injEq] at hres
    subst hres
    rfl

/-- Claim C9: if the lazy singleton reactor startup raises, the exception
propagates synchronously out of fetch on the caller's thread with its
class and message intact, and no Cross-Thread Future is returned. -/
theorem fetch_setup_failure_propagates (e : FidoError) (evs : List ReactorEvent) :
    fetch (Except.error e) evs = Except.error e ∧
    (∀ res, fetch (Except.error e) evs ≠ Except.ok res) ∧
    (∃ e', fetch (Except.error e) evs = Except.error e' ∧
      errorClass e' = errorClass e ∧ errorMessage e' = errorMessage e) :=
  ⟨rfl, fun _ h => Except.noConfusion h, ⟨e, rfl, rfl, rfl⟩⟩

/-- Witness for C9, at the tests' ValueError and an empty history. -/
theorem fetch_setup_failure_propagates_witness :
    fetch (Except.error (FidoError.valueError "I failed :(")) []
      = Except.error (FidoError.valueError "I failed :(") :=
  (fetch_setup_failure_propagates (FidoError.valueError "I failed :(") []).1

/-- Counterexample to claim C3 as stated: the error recorded when the
response-timeout (or connect-timeout) timer fires has the same Python
exception class, crochet.TimeoutError, as the caller's own wait-deadline
timeout error — both test_agent_timeout and test_eventual_result_timeout
catch crochet.TimeoutError — so its kind is not distinguishable from the
wait-deadline error's kind. -/
theorem timeout_error_class_not_distinct :
    errorClass (response_timeout_error 1) = errorClass wait_timeout_error ∧
    errorClass (connect_timeout_error 1) = errorClass wait_timeout_error :=
  ⟨rfl, rfl⟩

/-- Claim C3 (amended): the timer-fired error is distinguishable by class
from ordinary network failures, but shares the exception class
crochet.TimeoutError with the caller's wait-deadline timeout and is
distinguishable from it only by message; that human-readable message
explicitly names which timeout class fired and the configured duration via
the matchable substrings timeout=<N> and connect_timeout=<N>. -/
theorem timeout_error_messages (t : Int) (cls msg : String)
    (hcls : cls ≠ "crochet.TimeoutError") :
    errorClass (response_timeout_error t) = errorClass wait_timeout_error ∧
    errorClass (response_timeout_error t)
      ≠ errorClass (FidoError.networkError cls msg) ∧
    errorClass (connect_timeout_error t)
      ≠ errorClass (FidoError.networkError cls msg) ∧
    containsSub (errorMessage (response_timeout_error t))
      ("timeout=" ++ toString t) ∧
    containsSub (errorMessage (connect_timeout_error t))
      ("connect_timeout=" ++ toString t) := by
  refine ⟨rfl, fun hh => hcls hh.symm, fun hh => hcls hh.symm, ?_, ?_⟩
  · exact ⟨"Connection was closed by fido because the server took more than ",
      " seconds to send the response", rfl⟩
  · exact ⟨"Connection was closed by Twisted Agent because the HTTP connection took more than ",
      " seconds to establish.", rfl⟩

/-- Witness for C3 (amended), at duration 1 and the network-failure class
the tests use. -/
theorem timeout_error_messages_witness :
    errorClass (response_timeout_error 1) = errorClass wait_timeout_error ∧
    errorClass (response_timeout_error 1)
      ≠ errorClass (FidoError.networkError "twisted.web.client.ResponseFailed" "I failed :(") ∧
    containsSub (errorMessage (response_timeout_error 1))
      ("timeout=" ++ toString (1 : Int)) := by
  have h := timeout_error_messages 1 "twisted.web.client.ResponseFailed"
    "I failed :(" (by decide)
  exact ⟨h.1, h.2.1, h.2.2.2.1⟩

end Fido
